import Mathlib

/-!
Shallow embedding of the login page client (src/main.js): the attempt-record
storage and lockout state machine, the form validator, the provider-error
translation and the login controllers, together with theorems settling the
specification claims about them.
-/

namespace LoginPage

/-- The `CONFIG` object of src/main.js (lines 18-23). Durations and timestamps
are in milliseconds. -/
structure Config where
  maxLoginAttempts : Nat
  lockoutDuration : Nat
  minPasswordLength : Nat
  enableRateLimiting : Bool
deriving DecidableEq, Repr

/-- The concrete configuration the page runs with. -/
def CONFIG : Config :=
  { maxLoginAttempts := 5
    lockoutDuration := 15 * 60 * 1000
    minPasswordLength := 6
    enableRateLimiting := true }

/-- The persisted attempt record `{count, timestamp}` (spec section 3). -/
structure AttemptRecord where
  count : Nat
  timestamp : Nat
deriving DecidableEq, Repr

/-- The mutable client state: the `localStorage` slot under the key
"loginAttempts" (`none` = key absent), and the two module-level variables
`loginAttempts` and `isLocked` of src/main.js (lines 26-27). -/
structure ClientState where
  storage : Option String
  loginAttempts : AttemptRecord
  isLocked : Bool
deriving DecidableEq, Repr

/-- Kinds of status banner messages (`showMessage` second argument). -/
inductive MsgKind where
  | info
  | success
  | warning
  | error
deriving DecidableEq, Repr

/-- Observable UI / external effects emitted by the handlers. -/
inductive Event where
  | showMessage (text : String) (kind : MsgKind)
  | showFieldError (field : String) (text : String)
  | clearMessages
  | setLoading (isOn : Bool) (buttonId : String)
  | disableInputs
  | setPersistenceCall (localPersistence : Bool)
  | signInCall (email : String) (password : String)
  | popupSignInCall
  | scheduleNavigate (url : String) (delayMs : Nat)
deriving DecidableEq, Repr

/-- A provider error object: a `code` string and a `message` string
(the empty string models a missing/empty message, which is falsy in JS). -/
structure AuthError where
  code : String
  message : String
deriving DecidableEq, Repr

/-- Outcome of the awaited provider call. -/
inductive ProviderResult where
  | success
  | failure (err : AuthError)
deriving DecidableEq, Repr

/-! ### JSON values and `JSON.parse`

The attempt record is persisted JSON-encoded. `JSON.stringify({count,
timestamp})` produces exactly `{"count":N,"timestamp":M}`, but the stored
payload is an arbitrary string, so the read boundary is that of `JSON.parse`
itself: the parser below implements the full JSON grammar (ECMA-404) —
whitespace anywhere between tokens, objects with members in any order
(duplicate keys resolved last-wins as in JS), arrays, strings with escapes,
and the exact number grammar (no leading zeros) — and yields `none` exactly
where `JSON.parse` throws a SyntaxError. -/

/-- Serialisation of the attempt record, as `JSON.stringify` produces it. -/
def encodeAttempts (r : AttemptRecord) : String :=
  "\x7b\"count\":" ++ toString r.count ++ ",\"timestamp\":" ++ toString r.timestamp ++ "\x7d"

/-- The exact components of a JSON number literal
`-?(int)(.frac)?([eE]exp)?`: sign, integer-digit value, fraction-digit value
and length, and exponent. The denoted value is
`(-1)^neg * (intPart + fracPart / 10^fracLen) * 10^exp`. JS stores doubles;
the claims only ever inspect integer values of magnitude at most 2^53, where
literal and double agree exactly. -/
structure JsonNumber where
  neg : Bool
  intPart : Nat
  fracPart : Nat
  fracLen : Nat
  exp : Int
deriving DecidableEq, Repr

/-- A parsed JSON value. -/
inductive Json where
  | null
  | bool (b : Bool)
  | num (x : JsonNumber)
  | str (s : String)
  | arr (elems : List Json)
  | obj (members : List (String × Json))

/-- ASCII decimal digit test. -/
def isDigitChar (c : Char) : Bool :=
  '0' ≤ c && c ≤ '9'

/-- Skip the JSON whitespace characters (space, tab, newline, carriage
return). -/
def skipWs : List Char → List Char
  | c :: cs => if c = ' ' ∨ c = '\t' ∨ c = '\n' ∨ c = '\r' then skipWs cs else c :: cs
  | [] => []

/-- Split off the leading run of decimal digits. -/
def takeDigits : List Char → List Char × List Char
  | c :: cs =>
      if isDigitChar c then
        let (ds, r) := takeDigits cs
        (c :: ds, r)
      else ([], c :: cs)
  | [] => ([], [])

/-- The natural number denoted by a digit run. -/
def natOfDigits (l : List Char) : Nat :=
  l.foldl (fun a c => a * 10 + (c.toNat - 48)) 0

/-- Value of one hexadecimal digit. -/
def hexVal (c : Char) : Option Nat :=
  if '0' ≤ c ∧ c ≤ '9' then some (c.toNat - 48)
  else if 'a' ≤ c ∧ c ≤ 'f' then some (c.toNat - 87)
  else if 'A' ≤ c ∧ c ≤ 'F' then some (c.toNat - 55)
  else none

/-- Code point of a `\uXXXX` escape. -/
def hex4 (h1 h2 h3 h4 : Char) : Option Nat := do
  let a ← hexVal h1
  let b ← hexVal h2
  let c ← hexVal h3
  let d ← hexVal h4
  some (a * 4096 + b * 256 + c * 16 + d)

/-- The character for a decoded code point; a lone surrogate half (which JS
strings can carry but Unicode scalar values cannot) is represented by U+FFFD,
which cannot collide with the ASCII keys this program looks up. -/
def charOfCodePoint (n : Nat) : Char :=
  if n < 0xd800 ∨ (0xdfff < n ∧ n < 0x110000) then Char.ofNat n else '�'

/-- Body of a JSON string after the opening quote: unescaped characters must
be at least U+0020, escapes cover the nine JSON forms, and a `\uXXXX` high
surrogate followed by a `\uXXXX` low surrogate decodes as a pair. Returns the
decoded characters and the input after the closing quote. -/
def parseStringBody : List Char → Option (List Char × List Char)
  | '"' :: r => some ([], r)
  | '\\' :: 'u' :: h1 :: h2 :: h3 :: h4 :: '\\' :: 'u' :: g1 :: g2 :: g3 :: g4 :: r => do
      let n ← hex4 h1 h2 h3 h4
      let m ← hex4 g1 g2 g3 g4
      let c :=
        if 0xd800 ≤ n ∧ n ≤ 0xdbff ∧ 0xdc00 ≤ m ∧ m ≤ 0xdfff then
          [charOfCodePoint (0x10000 + (n - 0xd800) * 0x400 + (m - 0xdc00))]
        else [charOfCodePoint n, charOfCodePoint m]
      let (cs, rest) ← parseStringBody r
      some (c ++ cs, rest)
  | '\\' :: 'u' :: h1 :: h2 :: h3 :: h4 :: r => do
      let n ← hex4 h1 h2 h3 h4
      let (cs, rest) ← parseStringBody r
      some (charOfCodePoint n :: cs, rest)
  | '\\' :: e :: r => do
      let c ←
        if e = '"' then some '"'
        else if e = '\\' then some '\\'
        else if e = '/' then some '/'
        else if e = 'b' then some '\x08'
        else if e = 'f' then some '\x0c'
        else if e = 'n' then some '\n'
        else if e = 'r' then some '\r'
        else if e = 't' then some '\t'
        else none
      let (cs, rest) ← parseStringBody r
      some (c :: cs, rest)
  | c :: r =>
      if c.toNat < 0x20 then none
      else do
        let (cs, rest) ← parseStringBody r
        some (c :: cs, rest)
  | [] => none

/-- Fraction part `.digits`, or nothing. -/
def parseFrac : List Char → Option (List Char × List Char)
  | '.' :: r =>
      let (fs, r2) := takeDigits r
      if fs = [] then none else some (fs, r2)
  | l => some ([], l)

/-- Exponent part `[eE][+-]?digits`, or nothing. -/
def parseExp : List Char → Option (Int × List Char)
  | c :: r =>
      if c = 'e' ∨ c = 'E' then
        let (eneg, r1) :=
          match r with
          | '+' :: r2 => (false, r2)
          | '-' :: r2 => (true, r2)
          | _ => (false, r)
        let (es, r2) := takeDigits r1
        if es = [] then none
        else some (if eneg then -(natOfDigits es : Int) else (natOfDigits es : Int), r2)
      else some (0, c :: r)
  | [] => some (0, [])

/-- A JSON number: `-?(0|[1-9][0-9]*)(.digits)?([eE][+-]?digits)?`. A leading
zero before another digit is a SyntaxError, exactly as in `JSON.parse`. -/
def parseNumber (l : List Char) : Option (JsonNumber × List Char) :=
  let (neg, l1) :=
    match l with
    | '-' :: r => (true, r)
    | _ => (false, l)
  match takeDigits l1 with
  | ([], _) => none
  | (d :: ds, l2) =>
      if d = '0' ∧ ds ≠ [] then none
      else
        match parseFrac l2 with
        | none => none
        | some (fs, l3) =>
            match parseExp l3 with
            | none => none
            | some (e, l4) =>
                some (⟨neg, natOfDigits (d :: ds), natOfDigits fs, fs.length, e⟩, l4)

mutual

/-- A JSON value at the head of the input (leading whitespace already
skipped): object, array, string, number, or literal. The fuel only bounds
nesting; every recursive call strictly follows the consumption of at least
one character, so `length + 1` fuel never runs out. -/
def parseValue : Nat → List Char → Option (Json × List Char)
  | 0, _ => none
  | fuel + 1, l =>
      match l with
      | '\x7b' :: r =>
          (match skipWs r with
           | '\x7d' :: r2 => some (Json.obj [], r2)
           | r2 =>
               match parseMembers fuel r2 with
               | some (ms, r3) => some (Json.obj ms, r3)
               | none => none)
      | '[' :: r =>
          (match skipWs r with
           | ']' :: r2 => some (Json.arr [], r2)
           | r2 =>
               match parseElems fuel r2 with
               | some (vs, r3) => some (Json.arr vs, r3)
               | none => none)
      | '"' :: r =>
          (match parseStringBody r with
           | some (cs, r2) => some (Json.str (String.mk cs), r2)
           | none => none)
      | 't' :: 'r' :: 'u' :: 'e' :: r => some (Json.bool true, r)
      | 'f' :: 'a' :: 'l' :: 's' :: 'e' :: r => some (Json.bool false, r)
      | 'n' :: 'u' :: 'l' :: 'l' :: r => some (Json.null, r)
      | _ =>
          (match parseNumber l with
           | some (q, r) => some (Json.num q, r)
           | none => none)

/-- One or more `"key" : value` members up to the closing brace, leading
whitespace already skipped. -/
def parseMembers : Nat → List Char → Option (List (String × Json) × List Char)
  | 0, _ => none
  | fuel + 1, l =>
      match l with
      | '"' :: r =>
          (match parseStringBody r with
           | some (key, r2) =>
               (match skipWs r2 with
                | ':' :: r3 =>
                    (match parseValue fuel (skipWs r3) with
                     | some (v, r4) =>
                         (match skipWs r4 with
                          | ',' :: r5 =>
                              (match parseMembers fuel (skipWs r5) with
                               | some (ms, r6) => some ((String.mk key, v) :: ms, r6)
                               | none => none)
                          | '\x7d' :: r5 => some ([(String.mk key, v)], r5)
                          | _ => none)
                     | none => none)
                | _ => none)
           | none => none)
      | _ => none

/-- One or more array elements up to the closing bracket, leading whitespace
already skipped. -/
def parseElems : Nat → List Char → Option (List Json × List Char)
  | 0, _ => none
  | fuel + 1, l =>
      match parseValue fuel l with
      | some (v, r) =>
          (match skipWs r with
           | ',' :: r2 =>
               (match parseElems fuel (skipWs r2) with
                | some (vs, r3) => some (v :: vs, r3)
                | none => none)
           | ']' :: r2 => some ([v], r2)
           | _ => none)
      | none => none

end

/-- `JSON.parse`: a complete JSON text, optionally whitespace-padded; `none`
models the thrown SyntaxError. -/
def jsonParse (s : String) : Option Json :=
  match parseValue (s.length + 1) (skipWs s.data) with
  | some (v, rest) => if skipWs rest = [] then some v else none
  | none => none

/-- Member lookup with the JS object semantics `JSON.parse` induces: a
duplicated key keeps its last occurrence. -/
def lookupMember (ms : List (String × Json)) (k : String) : Option Json :=
  match ms with
  | [] => none
  | (k2, v) :: rest =>
      match lookupMember rest k with
      | some v2 => some v2
      | none => if k2 = k then some v else none

/-- The natural number a JSON number literal denotes, when its exact value
is one: scaling by the fraction length and exponent must leave no remainder
and no sign. Bounded by 2^53 (`Number.MAX_SAFE_INTEGER + 1`), up to which a
JS double carries the integer exactly; larger or non-integer numbers are
outside the record-typed model. -/
def natOfJsonNumber (x : JsonNumber) : Option Nat :=
  let scaled : Nat := x.intPart * 10 ^ x.fracLen + x.fracPart
  if x.neg ∧ scaled ≠ 0 then none
  else
    let k : Int := x.exp - x.fracLen
    if 0 ≤ k then
      let n := scaled * 10 ^ k.toNat
      if n ≤ 2 ^ 53 then some n else none
    else
      let d := 10 ^ (-k).toNat
      if scaled % d = 0 ∧ scaled / d ≤ 2 ^ 53 then some (scaled / d) else none

/-- A JSON value that denotes a natural number. -/
def natOfJson : Json → Option Nat
  | Json.num x => natOfJsonNumber x
  | _ => none

/-- The attempt record carried by a parsed JSON value: an object whose
"count" and "timestamp" members are natural numbers — the shape this program
writes, independent of member order or extra members. -/
def recordOfJson : Json → Option AttemptRecord
  | Json.obj ms =>
      match natOfJson ((lookupMember ms "count").getD Json.null),
            natOfJson ((lookupMember ms "timestamp").getD Json.null) with
      | some n, some m => some ⟨n, m⟩
      | _, _ => none
  | _ => none

/-- The stored payloads that parse as attempt records: `JSON.parse` succeeds
and the value has the record shape. -/
def jsonParseAttempts (s : String) : Option AttemptRecord :=
  (jsonParse s).bind recordOfJson

/-! ### Attempt tracking (src/main.js lines 290-341) -/

/-- The three outcomes of the read at line 293: a falsy payload (absent key
or empty string) or a record-shaped parse returns a record; valid JSON
without the record shape returns that other value; and a `JSON.parse`
SyntaxError propagates — there is no try/catch. -/
inductive ReadOutcome where
  | value (r : AttemptRecord)
  | other (v : Json)
  | thrown

/-- `getLoginAttempts` (lines 291-294), faithfully:
`attempts ? JSON.parse(attempts) : {count: 0, timestamp: Date.now()}`. -/
def readLoginAttempts (store : Option String) (now : Nat) : ReadOutcome :=
  match store with
  | none => ReadOutcome.value ⟨0, now⟩
  | some s =>
      if s = "" then ReadOutcome.value ⟨0, now⟩
      else
        match jsonParse s with
        | none => ReadOutcome.thrown
        | some v =>
            match recordOfJson v with
            | some r => ReadOutcome.value r
            | none => ReadOutcome.other v

/-- The record-typed view of the read used by the tracker state machine:
`Except.error` covers the outcomes that deliver no record — the propagated
`JSON.parse` exception and, outside the region any claim exercises (the
program itself only ever writes canonical records), a normal return whose
value lacks the record shape. -/
def getLoginAttempts (store : Option String) (now : Nat) : Except Unit AttemptRecord :=
  match readLoginAttempts store now with
  | ReadOutcome.value r => Except.ok r
  | _ => Except.error ()

/-- `resetLoginAttempts` (lines 309-313): sets the module record to
`{0, now}`, removes the persisted key and clears the `isLocked` flag. -/
def resetLoginAttempts (now : Nat) : ClientState :=
  { storage := none, loginAttempts := ⟨0, now⟩, isLocked := false }

/-- Remaining lockout minutes as computed inside `showLockoutMessage`
(line 333): `Math.ceil((lockoutDuration - (now - timestamp)) / 60000)`. -/
def remainingLockoutMinutes (cfg : Config) (r : AttemptRecord) (now : Nat) : Int :=
  -((-((cfg.lockoutDuration : Int) - ((now : Int) - (r.timestamp : Int)))).fdiv 60000)

/-- `showLockoutMessage` (lines 332-341): renders the lockout banner with the
remaining minutes and disables the form inputs. -/
def showLockoutMessage (cfg : Config) (r : AttemptRecord) (now : Nat) : List Event :=
  [Event.showMessage
      ("Account temporarily locked due to too many failed attempts. Try again in "
        ++ toString (remainingLockoutMinutes cfg r now) ++ " minutes.")
      MsgKind.error,
   Event.disableInputs]

/-- `incrementLoginAttempts` (lines 296-307): no-op when rate limiting is
disabled; otherwise bumps the module record's count, stamps it with `now`,
persists it, and on reaching `maxLoginAttempts` sets the `isLocked` flag and
shows the lockout message. -/
def incrementLoginAttempts (cfg : Config) (st : ClientState) (now : Nat) :
    ClientState × List Event :=
  if !cfg.enableRateLimiting then (st, [])
  else
    let r : AttemptRecord := ⟨st.loginAttempts.count + 1, now⟩
    let st2 : ClientState :=
      { storage := some (encodeAttempts r), loginAttempts := r, isLocked := st.isLocked }
    if cfg.maxLoginAttempts ≤ r.count then
      ({ st2 with isLocked := true }, showLockoutMessage cfg r now)
    else (st2, [])

/-- `checkLockout` (lines 315-330): false when rate limiting is disabled;
otherwise reads the stored record (a malformed payload propagates the
`JSON.parse` exception); locked iff `count ≥ maxLoginAttempts` and the elapsed
time since `timestamp` is below `lockoutDuration`; an expired window triggers
`resetLoginAttempts` and yields false. Subtraction is over `Int`, matching JS
number arithmetic. -/
def checkLockout (cfg : Config) (st : ClientState) (now : Nat) :
    Except Unit (Bool × ClientState) :=
  if !cfg.enableRateLimiting then Except.ok (false, st)
  else
    match getLoginAttempts st.storage now with
    | Except.error e => Except.error e
    | Except.ok attempts =>
        if cfg.maxLoginAttempts ≤ attempts.count then
          if (now : Int) - (attempts.timestamp : Int) < (cfg.lockoutDuration : Int) then
            Except.ok (true, st)
          else
            Except.ok (false, resetLoginAttempts now)
        else Except.ok (false, st)

/-! ### Validator (src/main.js lines 188-236) -/

/-- The character class `\s` of JavaScript regular expressions. -/
def isJsWhitespace (c : Char) : Bool :=
  c = ' ' || c = '\t' || c = '\n' || c = '\r' || c.val = 11 || c.val = 12 ||
  c.val = 0xa0 || c.val = 0x1680 || (0x2000 ≤ c.val && c.val ≤ 0x200a) ||
  c.val = 0x2028 || c.val = 0x2029 || c.val = 0x202f || c.val = 0x205f ||
  c.val = 0x3000 || c.val = 0xfeff

/-- The character class `[^\s@]` of the email pattern: neither whitespace
nor `'@'`. -/
def emailChar (c : Char) : Bool :=
  !isJsWhitespace c && !(c = '@')

/-- Recogniser for the regex fragment `[^\s@]*\.[^\s@]+$`: either the head is
the literal dot followed by a non-empty all-`emailChar` tail, or the head is
consumed by the star and the rest matches (the disjunction is the regex
engine's backtracking). -/
def domMatch : List Char → Bool
  | [] => false
  | c :: cs => (c = '.' && cs ≠ [] && cs.all emailChar) || (emailChar c && domMatch cs)

/-- Recogniser for `[^\s@]+\.[^\s@]+$` (the part after the `'@'`). -/
def domainMatch : List Char → Bool
  | [] => false
  | c :: cs => emailChar c && domMatch cs

/-- Recogniser for `[^\s@]*@[^\s@]+\.[^\s@]+$` after at least one local-part
character has been consumed. -/
def localRest : List Char → Bool
  | [] => false
  | c :: cs => (c = '@' && domainMatch cs) || (emailChar c && localRest cs)

/-- Recogniser for the whole pattern `^[^\s@]+@[^\s@]+\.[^\s@]+$` over the
character list of the candidate string. -/
def emailMatch : List Char → Bool
  | [] => false
  | c :: cs => emailChar c && localRest cs

/-- `isValidEmail` (lines 233-236): the test of
`/^[^\s@]+@[^\s@]+\.[^\s@]+$/` against the whole string. -/
def isValidEmail (email : String) : Bool :=
  emailMatch email.data

/-- The email block of `validateForm` (lines 191-198): required, then format
checked; yields the validity flag and the rendered field error. A missing
form field is the falsy empty string. -/
def emailCheck (email : String) : Bool × List Event :=
  if email = "" then (false, [Event.showFieldError "email" "Email is required"])
  else if isValidEmail email then (true, [])
  else (false, [Event.showFieldError "email" "Please enter a valid email address"])

/-- The password block of `validateForm` (lines 200-207): required, then
length checked against `minPasswordLength`. -/
def passwordCheck (cfg : Config) (password : String) : Bool × List Event :=
  if password = "" then (false, [Event.showFieldError "password" "Password is required"])
  else if password.length < cfg.minPasswordLength then
    (false,
      [Event.showFieldError "password"
        ("Password must be at least " ++ toString cfg.minPasswordLength ++ " characters")])
  else (true, [])

/-- `validateForm` (lines 188-210): the `isValid` flag is the conjunction of
the two blocks, and the field-error renderings happen in source order. Pure:
no storage or network access. -/
def validateForm (cfg : Config) (email password : String) : Bool × List Event :=
  ((emailCheck email).1 && (passwordCheck cfg password).1,
    (emailCheck email).2 ++ (passwordCheck cfg password).2)

/-! ### Error translation (src/main.js lines 253-288) -/

/-- The error-code mapping inside `handleLoginError`: the `switch` over
`error.code`, whose default arm is `error.message || generic` (the empty
string models a falsy message). -/
def translateError (code fallbackMessage : String) : String :=
  if code = "auth/user-not-found" then "No account found with this email address."
  else if code = "auth/wrong-password" then "Incorrect password. Please try again."
  else if code = "auth/invalid-email" then "Please enter a valid email address."
  else if code = "auth/user-disabled" then
    "This account has been disabled. Please contact support."
  else if code = "auth/too-many-requests" then
    "Too many failed attempts. Please try again later."
  else if code = "auth/network-request-failed" then
    "Network error. Please check your connection and try again."
  else if code = "auth/popup-closed-by-user" then "Sign-in was cancelled. Please try again."
  else if code = "auth/popup-blocked" then
    "Pop-up was blocked. Please allow pop-ups and try again."
  else if fallbackMessage = "" then "An unexpected error occurred. Please try again."
  else fallbackMessage

/-- The fixed enumerated set of provider codes the `switch` knows. -/
def knownErrorCodes : List String :=
  ["auth/user-not-found", "auth/wrong-password", "auth/invalid-email",
   "auth/user-disabled", "auth/too-many-requests", "auth/network-request-failed",
   "auth/popup-closed-by-user", "auth/popup-blocked"]

/-- `handleLoginError` (lines 253-288): renders the translated message as an
error banner. -/
def handleLoginError (e : AuthError) : List Event :=
  [Event.showMessage (translateError e.code e.message) MsgKind.error]

/-! ### Controllers (src/main.js lines 99-179) -/

/-- `handleLogin` (lines 99-144): gate on the cached `isLocked` flag, then
validation, then loading / persistence / provider call; success resets the
tracker and schedules navigation, failure renders the translated error and
then increments the tracker; the `finally` clause clears the loading state. -/
def handleLogin (cfg : Config) (st : ClientState) (email password : String)
    (rememberMe : Bool) (res : ProviderResult) (now : Nat) : ClientState × List Event :=
  if st.isLocked then (st, showLockoutMessage cfg st.loginAttempts now)
  else if (validateForm cfg email password).1 then
    match res with
    | ProviderResult.success =>
        (resetLoginAttempts now,
          Event.setLoading true "login-btn" :: Event.clearMessages ::
          Event.setPersistenceCall rememberMe :: Event.signInCall email password ::
          Event.showMessage "Login successful! Redirecting..." MsgKind.success ::
          Event.scheduleNavigate "logged.html" 1500 :: [Event.setLoading false "login-btn"])
    | ProviderResult.failure err =>
        ((incrementLoginAttempts cfg st now).1,
          Event.setLoading true "login-btn" :: Event.clearMessages ::
          Event.setPersistenceCall rememberMe :: Event.signInCall email password ::
          (handleLoginError err ++ (incrementLoginAttempts cfg st now).2
            ++ [Event.setLoading false "login-btn"]))
  else (st, (validateForm cfg email password).2)

/-- `handleGoogleLogin` (lines 147-179): same gate on the cached flag, no
form validation, popup provider call; any failure — the user closing the
popup included — renders the translated error and increments the tracker. -/
def handleGoogleLogin (cfg : Config) (st : ClientState) (res : ProviderResult)
    (now : Nat) : ClientState × List Event :=
  if st.isLocked then (st, showLockoutMessage cfg st.loginAttempts now)
  else
    match res with
    | ProviderResult.success =>
        (resetLoginAttempts now,
          Event.setLoading true "google-login-btn" :: Event.clearMessages ::
          Event.popupSignInCall ::
          Event.showMessage "Google login successful! Redirecting..." MsgKind.success ::
          Event.scheduleNavigate "logged.html" 1500 ::
          [Event.setLoading false "google-login-btn"])
    | ProviderResult.failure err =>
        ((incrementLoginAttempts cfg st now).1,
          Event.setLoading true "google-login-btn" :: Event.clearMessages ::
          Event.popupSignInCall ::
          (handleLoginError err ++ (incrementLoginAttempts cfg st now).2
            ++ [Event.setLoading false "google-login-btn"]))

/-- One step of replaying the loading state of a button from the event trace. -/
def loadingStep (btn : String) (acc : Bool) (ev : Event) : Bool :=
  match ev with
  | Event.setLoading b buttonId => if buttonId = btn then b else acc
  | _ => acc

/-- The loading state of a button after a trace, starting from not-loading. -/
def loadingAfter (btn : String) (evs : List Event) : Bool :=
  evs.foldl (loadingStep btn) false

/-- `n` consecutive failed password submissions recorded at time 0
(each applies `incrementLoginAttempts` with the running state). -/
def incIter (n : Nat) (st : ClientState) : ClientState :=
  match n with
  | 0 => st
  | k + 1 => (incrementLoginAttempts CONFIG (incIter k st) 0).1

/-- `n` consecutive Google popup sign-ins failing with
`auth/popup-closed-by-user` at time 0. -/
def popupFailIter (n : Nat) (st : ClientState) : ClientState :=
  match n with
  | 0 => st
  | k + 1 =>
      (handleGoogleLogin CONFIG (popupFailIter k st)
        (ProviderResult.failure ⟨"auth/popup-closed-by-user", "popup closed"⟩) 0).1

/-! ### Characterisation of the email recogniser -/

/-- The fragment `[^\s@]*\.[^\s@]+$` matches exactly the lists that split as
`B ++ '.' :: C` with `B` arbitrary and `C` non-empty, all over `emailChar`. -/
theorem domMatch_iff (l : List Char) :
    domMatch l = true ↔
      ∃ B C : List Char, (∀ c ∈ B, emailChar c = true) ∧ C ≠ [] ∧
        (∀ c ∈ C, emailChar c = true) ∧ l = B ++ '.' :: C := by
  induction l with
  | nil =>
      simp [domMatch]
  | cons c cs ih =>
      simp only [domMatch, Bool.or_eq_true, Bool.and_eq_true, decide_eq_true_eq,
        List.all_eq_true]
      constructor
      · rintro (⟨⟨hdot, hne⟩, hall⟩ | ⟨hc, hrest⟩)
        · exact ⟨[], cs, by simp, hne, hall, by simp [hdot]⟩
        · obtain ⟨B, C, hB, hC, hCall, heq⟩ := ih.mp hrest
          refine ⟨c :: B, C, ?_, hC, hCall, by simp [heq]⟩
          intro x hx
          rcases List.mem_cons.mp hx with hx | hx
          · exact hx ▸ hc
          · exact hB x hx
      · rintro ⟨B, C, hB, hC, hCall, heq⟩
        cases B with
        | nil =>
            rw [List.nil_append] at heq
            obtain ⟨h1, h2⟩ := List.cons.inj heq
            subst h1; subst h2
            exact Or.inl ⟨⟨rfl, hC⟩, hCall⟩
        | cons b bs =>
            rw [List.cons_append] at heq
            obtain ⟨h1, h2⟩ := List.cons.inj heq
            subst h2
            rw [h1]
            exact Or.inr ⟨hB b (List.mem_cons_self b bs),
              ih.mpr ⟨bs, C, fun x hx => hB x (List.mem_cons_of_mem b hx), hC, hCall, rfl⟩⟩

/-- The fragment `[^\s@]+\.[^\s@]+$` additionally needs `B` non-empty. -/
theorem domainMatch_iff (l : List Char) :
    domainMatch l = true ↔
      ∃ B C : List Char, B ≠ [] ∧ C ≠ [] ∧ (∀ c ∈ B, emailChar c = true) ∧
        (∀ c ∈ C, emailChar c = true) ∧ l = B ++ '.' :: C := by
  cases l with
  | nil => simp [domainMatch]
  | cons c cs =>
      simp only [domainMatch, Bool.and_eq_true]
      constructor
      · rintro ⟨hc, hd⟩
        obtain ⟨B, C, hB, hC, hCall, heq⟩ := (domMatch_iff cs).mp hd
        refine ⟨c :: B, C, by simp, hC, ?_, hCall, by simp [heq]⟩
        intro x hx
        rcases List.mem_cons.mp hx with hx | hx
        · exact hx ▸ hc
        · exact hB x hx
      · rintro ⟨B, C, hBne, hC, hB, hCall, heq⟩
        cases B with
        | nil => exact absurd rfl hBne
        | cons b bs =>
            rw [List.cons_append] at heq
            obtain ⟨h1, h2⟩ := List.cons.inj heq
            subst h2
            rw [h1]
            exact ⟨hB b (List.mem_cons_self b bs),
              (domMatch_iff _).mpr
                ⟨bs, C, fun x hx => hB x (List.mem_cons_of_mem b hx), hC, hCall, rfl⟩⟩

/-- After one local-part character, `localRest` accepts exactly
`A ++ '@' :: rest` with `A` an `emailChar` run and `rest` a domain match. -/
theorem localRest_iff (l : List Char) :
    localRest l = true ↔
      ∃ A rest : List Char, (∀ c ∈ A, emailChar c = true) ∧
        domainMatch rest = true ∧ l = A ++ '@' :: rest := by
  induction l with
  | nil => simp [localRest]
  | cons c cs ih =>
      simp only [localRest, Bool.or_eq_true, Bool.and_eq_true, decide_eq_true_eq]
      constructor
      · rintro (⟨hat, hd⟩ | ⟨hc, hrest⟩)
        · exact ⟨[], cs, by simp, hd, by simp [hat]⟩
        · obtain ⟨A, rest, hA, hd, heq⟩ := ih.mp hrest
          refine ⟨c :: A, rest, ?_, hd, by simp [heq]⟩
          intro x hx
          rcases List.mem_cons.mp hx with hx | hx
          · exact hx ▸ hc
          · exact hA x hx
      · rintro ⟨A, rest, hA, hd, heq⟩
        cases A with
        | nil =>
            rw [List.nil_append] at heq
            obtain ⟨h1, h2⟩ := List.cons.inj heq
            subst h1; subst h2
            exact Or.inl ⟨rfl, hd⟩
        | cons a as =>
            rw [List.cons_append] at heq
            obtain ⟨h1, h2⟩ := List.cons.inj heq
            subst h2
            rw [h1]
            exact Or.inr ⟨hA a (List.mem_cons_self a as),
              ih.mpr ⟨as, rest, fun x hx => hA x (List.mem_cons_of_mem a hx), hd, rfl⟩⟩

/-- The whole pattern in terms of the three non-empty `emailChar` runs. -/
theorem emailMatch_iff (l : List Char) :
    emailMatch l = true ↔
      ∃ A B C : List Char, A ≠ [] ∧ B ≠ [] ∧ C ≠ [] ∧
        (∀ c ∈ A, emailChar c = true) ∧ (∀ c ∈ B, emailChar c = true) ∧
        (∀ c ∈ C, emailChar c = true) ∧ l = A ++ '@' :: (B ++ '.' :: C) := by
  cases l with
  | nil => simp [emailMatch]
  | cons c cs =>
      simp only [emailMatch, Bool.and_eq_true]
      constructor
      · rintro ⟨hc, hrest⟩
        obtain ⟨A, rest, hA, hd, heq⟩ := (localRest_iff cs).mp hrest
        obtain ⟨B, C, hBne, hCne, hB, hC, heq2⟩ := (domainMatch_iff rest).mp hd
        subst heq2
        refine ⟨c :: A, B, C, by simp, hBne, hCne, ?_, hB, hC, by simp [heq]⟩
        intro x hx
        rcases List.mem_cons.mp hx with hx | hx
        · exact hx ▸ hc
        · exact hA x hx
      · rintro ⟨A, B, C, hAne, hBne, hCne, hA, hB, hC, heq⟩
        cases A with
        | nil => exact absurd rfl hAne
        | cons a as =>
            rw [List.cons_append] at heq
            obtain ⟨h1, h2⟩ := List.cons.inj heq
            subst h2
            rw [h1]
            exact ⟨hA a (List.mem_cons_self a as),
              (localRest_iff _).mpr ⟨as, B ++ '.' :: C,
                fun x hx => hA x (List.mem_cons_of_mem a hx),
                (domainMatch_iff _).mpr ⟨B, C, hBne, hCne, hB, hC, rfl⟩, rfl⟩⟩

/-! ### Claim theorems -/

/-- C1, counterexample: the persisted string "garbage" is not JSON, and the
read does not return normally on it — the `JSON.parse` exception propagates
instead of defaulting to `{count: 0, timestamp: now}`; likewise the
leading-zero payload, which `JSON.parse` rejects as a SyntaxError. -/
theorem getLoginAttempts_malformed_cex :
    jsonParse "garbage" = none ∧
    readLoginAttempts (some "garbage") 123 = ReadOutcome.thrown ∧
    getLoginAttempts (some "garbage") 123 = Except.error () ∧
    jsonParse "\x7b\"count\":01,\"timestamp\":2\x7d" = none ∧
    readLoginAttempts (some "\x7b\"count\":01,\"timestamp\":2\x7d") 123 =
      ReadOutcome.thrown :=
  ⟨rfl, rfl, rfl, rfl, rfl⟩

/-- C1, amended: a missing payload (absent key or falsy empty string) is
treated as absent and the read defaults to `{count: 0, timestamp: now}`; a
valid-JSON payload carrying the record shape — whatever its whitespace or
member order — is returned normally as that record; but a payload that is
not valid JSON makes the read throw the `JSON.parse` exception rather than
being treated as absent. -/
theorem getLoginAttempts_amended_spec (store : Option String) (now : Nat) :
    (store = none ∨ store = some "" →
      readLoginAttempts store now = ReadOutcome.value ⟨0, now⟩) ∧
    (∀ s r, store = some s → jsonParseAttempts s = some r →
      readLoginAttempts store now = ReadOutcome.value r ∧
      getLoginAttempts store now = Except.ok r) ∧
    (∀ s, store = some s → s ≠ "" → jsonParse s = none →
      readLoginAttempts store now = ReadOutcome.thrown ∧
      getLoginAttempts store now = Except.error ()) := by
  refine ⟨?_, ?_, ?_⟩
  · rintro (rfl | rfl) <;> rfl
  · rintro s r rfl hr
    obtain ⟨v, hv, hrv⟩ := Option.bind_eq_some.mp (by simpa [jsonParseAttempts] using hr)
    have hne : s ≠ "" := by
      intro h
      rw [h, (rfl : jsonParse "" = none)] at hv
      cases hv
    constructor
    · simp [readLoginAttempts, hne, hv, hrv]
    · simp [getLoginAttempts, readLoginAttempts, hne, hv, hrv]
  · rintro s rfl hne hj
    constructor
    · simp [readLoginAttempts, hne, hj]
    · simp [getLoginAttempts, readLoginAttempts, hne, hj]

/-- C1, witness: a whitespace-padded payload with the members in the
opposite order is valid JSON carrying the record, and the read returns it
normally. -/
theorem getLoginAttempts_amended_spec_witness :
    readLoginAttempts (some " \x7b \"timestamp\" : 2 , \"count\" : 1 \x7d ") 5 =
      ReadOutcome.value ⟨1, 2⟩ :=
  ((getLoginAttempts_amended_spec (some " \x7b \"timestamp\" : 2 , \"count\" : 1 \x7d ") 5).2.1
    " \x7b \"timestamp\" : 2 , \"count\" : 1 \x7d " ⟨1, 2⟩ rfl (by decide)).1

/-- C6: `isValidEmail` accepts exactly the strings made of a non-empty run
of non-whitespace non-`'@'` characters, then `'@'`, a non-empty such run,
`'.'`, and a final non-empty such run; in particular "a@b.co" passes while
"a@b" and "a b@c.com" fail. -/
theorem isValidEmail_spec :
    (∀ s : String, isValidEmail s = true ↔
      ∃ A B C : List Char, A ≠ [] ∧ B ≠ [] ∧ C ≠ [] ∧
        (∀ c ∈ A, emailChar c = true) ∧ (∀ c ∈ B, emailChar c = true) ∧
        (∀ c ∈ C, emailChar c = true) ∧ s.data = A ++ '@' :: (B ++ '.' :: C)) ∧
    isValidEmail "a@b.co" = true ∧ isValidEmail "a@b" = false ∧
    isValidEmail "a b@c.com" = false := by
  refine ⟨fun s => ?_, by decide, by decide, by decide⟩
  exact emailMatch_iff s.data

/-- Every event rendered by `validateForm` is a field-level error. -/
theorem validateForm_events_fieldErrors (cfg : Config) (email password : String) :
    ∀ ev ∈ (validateForm cfg email password).2, ∃ f m, ev = Event.showFieldError f m := by
  intro ev hev
  simp only [validateForm, emailCheck, passwordCheck] at hev
  split_ifs at hev <;> simp_all
  all_goals rcases hev with rfl | rfl <;> exact ⟨_, _, rfl⟩

/-- C5: `validateForm` reports the form valid iff the email is non-empty and
passes `isValidEmail` and the password is non-empty with length at least the
configured minimum; `validateForm CONFIG "a@b.com" "12345"` yields exactly
the password-length field error; the check is a pure function of its string
arguments and touches neither storage nor network. -/
theorem validateForm_spec :
    (∀ (cfg : Config) (email password : String),
      (validateForm cfg email password).1 = true ↔
        (email ≠ "" ∧ isValidEmail email = true ∧ password ≠ "" ∧
          cfg.minPasswordLength ≤ password.length)) ∧
    validateForm CONFIG "a@b.com" "12345" =
      (false, [Event.showFieldError "password" "Password must be at least 6 characters"]) := by
  refine ⟨fun cfg email password => ?_, by decide⟩
  simp only [validateForm, emailCheck, passwordCheck, Bool.and_eq_true]
  split_ifs with h1 h2 h3 h4 <;> simp_all

/-- C7: the error translation yields the canned sentence for each of the
eight known provider codes regardless of the fallback, and for every code
outside that set it yields the fallback message when non-empty, otherwise the
generic default; it is total, so an unknown code never fails. -/
theorem translateError_spec :
    (∀ fb : String,
      translateError "auth/user-not-found" fb = "No account found with this email address." ∧
      translateError "auth/wrong-password" fb = "Incorrect password. Please try again." ∧
      translateError "auth/invalid-email" fb = "Please enter a valid email address." ∧
      translateError "auth/user-disabled" fb =
        "This account has been disabled. Please contact support." ∧
      translateError "auth/too-many-requests" fb =
        "Too many failed attempts. Please try again later." ∧
      translateError "auth/network-request-failed" fb =
        "Network error. Please check your connection and try again." ∧
      translateError "auth/popup-closed-by-user" fb =
        "Sign-in was cancelled. Please try again." ∧
      translateError "auth/popup-blocked" fb =
        "Pop-up was blocked. Please allow pop-ups and try again.") ∧
    (∀ code fb : String, code ∉ knownErrorCodes → fb ≠ "" →
      translateError code fb = fb) ∧
    (∀ code : String, code ∉ knownErrorCodes →
      translateError code "" = "An unexpected error occurred. Please try again.") := by
  refine ⟨fun fb => ⟨rfl, rfl, rfl, rfl, rfl, rfl, rfl, rfl⟩, ?_, ?_⟩
  · intro code fb hc hfb
    simp only [knownErrorCodes, List.mem_cons, List.not_mem_nil, or_false, not_or] at hc
    obtain ⟨h1, h2, h3, h4, h5, h6, h7, h8⟩ := hc
    simp [translateError, h1, h2, h3, h4, h5, h6, h7, h8, hfb]
  · intro code hc
    simp only [knownErrorCodes, List.mem_cons, List.not_mem_nil, or_false, not_or] at hc
    obtain ⟨h1, h2, h3, h4, h5, h6, h7, h8⟩ := hc
    simp [translateError, h1, h2, h3, h4, h5, h6, h7, h8]

/-- C7, witness: an unknown code with a non-empty fallback yields the
fallback. -/
theorem translateError_spec_witness :
    translateError "auth/unknown-code-xyz" "oops" = "oops" :=
  translateError_spec.2.1 "auth/unknown-code-xyz" "oops" (by decide) (by decide)

/-- C2: on a well-formed stored record, `checkLockout` is false when rate
limiting is disabled; otherwise it is true iff `count ≥ maxAttempts` and
`now - timestamp < lockoutDuration`; and when `count ≥ maxAttempts` with the
window elapsed it resets the record to `{0, now}`, removes the persisted
entry, and returns false, so a subsequent `getLoginAttempts` yields a record
with count 0. -/
theorem checkLockout_spec (cfg : Config) (st : ClientState) (s : String) (r : AttemptRecord)
    (now : Nat) (hs : st.storage = some s) (hr : jsonParseAttempts s = some r) :
    (cfg.enableRateLimiting = false → checkLockout cfg st now = Except.ok (false, st)) ∧
    (cfg.enableRateLimiting = true →
      ((checkLockout cfg st now = Except.ok (true, st)) ↔
        (cfg.maxLoginAttempts ≤ r.count ∧
          (now : Int) - (r.timestamp : Int) < (cfg.lockoutDuration : Int))) ∧
      (cfg.maxLoginAttempts ≤ r.count →
        (cfg.lockoutDuration : Int) ≤ (now : Int) - (r.timestamp : Int) →
          checkLockout cfg st now = Except.ok (false, resetLoginAttempts now) ∧
          (resetLoginAttempts now).loginAttempts = ⟨0, now⟩ ∧
          (resetLoginAttempts now).storage = none ∧
          ∀ t, getLoginAttempts (resetLoginAttempts now).storage t = Except.ok ⟨0, t⟩) ∧
      (r.count < cfg.maxLoginAttempts → checkLockout cfg st now = Except.ok (false, st))) := by
  have hget : getLoginAttempts st.storage now = Except.ok r := by
    obtain ⟨v, hv, hrv⟩ := Option.bind_eq_some.mp (by simpa [jsonParseAttempts] using hr)
    have hne : s ≠ "" := by
      intro h
      rw [h, (rfl : jsonParse "" = none)] at hv
      cases hv
    rw [hs]
    simp [getLoginAttempts, readLoginAttempts, hne, hv, hrv]
  have hck : checkLockout cfg st now =
      (if !cfg.enableRateLimiting then Except.ok (false, st)
       else if cfg.maxLoginAttempts ≤ r.count then
         (if (now : Int) - (r.timestamp : Int) < (cfg.lockoutDuration : Int) then
           Except.ok (true, st)
          else Except.ok (false, resetLoginAttempts now))
       else Except.ok (false, st)) := by
    simp only [checkLockout, hget]
  refine ⟨fun hRL => ?_, fun hRL => ⟨?_, fun h1 h2 => ?_, fun h1 => ?_⟩⟩
  · rw [hck, hRL]
    rfl
  · rw [hck, hRL, if_neg (by simp)]
    constructor
    · intro h
      split_ifs at h with h1 h2
      · exact ⟨h1, h2⟩
      · cases h
      · cases h
    · rintro ⟨h1, h2⟩
      rw [if_pos h1, if_pos h2]
  · rw [hck, hRL, if_neg (by simp), if_pos h1, if_neg (not_lt.mpr h2)]
    exact ⟨rfl, rfl, rfl, fun t => rfl⟩
  · rw [hck, hRL, if_neg (by simp), if_neg (not_le.mpr h1)]

/-- C2, witness: five failures recorded at time 0, checked at time 10, leave
the tracker locked. -/
theorem checkLockout_spec_witness :
    checkLockout CONFIG ⟨some (encodeAttempts ⟨5, 0⟩), ⟨5, 0⟩, true⟩ 10 =
      Except.ok (true, ⟨some (encodeAttempts ⟨5, 0⟩), ⟨5, 0⟩, true⟩) :=
  (((checkLockout_spec CONFIG ⟨some (encodeAttempts ⟨5, 0⟩), ⟨5, 0⟩, true⟩
      (encodeAttempts ⟨5, 0⟩) ⟨5, 0⟩ 10 rfl (by decide)).2 rfl).1).mpr
    ⟨by decide, by decide⟩

/-- C3, counterexample: with the stored record `{5, 0}` and the cached lock
flag still set, at time 900000 the lockout window has elapsed — `checkLockout`
(the spec's `isLocked()`) returns false — yet `handleLogin` still
short-circuits on the stale flag and never reaches the provider. -/
theorem handleLogin_stale_lockout_cex :
    checkLockout CONFIG ⟨some (encodeAttempts ⟨5, 0⟩), ⟨5, 0⟩, true⟩ 900000 =
      Except.ok (false, resetLoginAttempts 900000) ∧
    handleLogin CONFIG ⟨some (encodeAttempts ⟨5, 0⟩), ⟨5, 0⟩, true⟩ "a@b.co" "123456" false
      ProviderResult.success 900000 =
      (⟨some (encodeAttempts ⟨5, 0⟩), ⟨5, 0⟩, true⟩,
        showLockoutMessage CONFIG ⟨5, 0⟩ 900000) ∧
    Event.signInCall "a@b.co" "123456" ∉
      (handleLogin CONFIG ⟨some (encodeAttempts ⟨5, 0⟩), ⟨5, 0⟩, true⟩ "a@b.co" "123456" false
        ProviderResult.success 900000).2 :=
  ⟨rfl, rfl, by decide⟩

/-- C3, amended: the controller short-circuits exactly when the module-level
cached `isLocked` flag is set — the value of the lockout check as of its last
recomputation (page load, failure increment, or reset), not at submission
time. When the flag is set it renders the lockout message with the remaining
minutes, disables the form inputs, and returns without calling the provider
or mutating the attempt record; when the flag is clear and validation passes
it proceeds to the provider call; a lockout window that has elapsed since the
flag was set still short-circuits until the flag is recomputed. -/
theorem handleLogin_lockout_gate_spec (cfg : Config) (st : ClientState)
    (email password : String) (rememberMe : Bool) (res : ProviderResult) (now : Nat) :
    (st.isLocked = true →
      handleLogin cfg st email password rememberMe res now =
        (st, showLockoutMessage cfg st.loginAttempts now) ∧
      Event.disableInputs ∈ (handleLogin cfg st email password rememberMe res now).2 ∧
      ∀ e p, Event.signInCall e p ∉
        (handleLogin cfg st email password rememberMe res now).2) ∧
    (st.isLocked = false → (validateForm cfg email password).1 = true →
      Event.signInCall email password ∈
        (handleLogin cfg st email password rememberMe res now).2) := by
  constructor
  · intro hl
    refine ⟨by simp [handleLogin, hl], ?_, fun e p => ?_⟩
    · simp [handleLogin, hl, showLockoutMessage]
    · simp [handleLogin, hl, showLockoutMessage]
  · intro hl hv
    cases res <;> simp [handleLogin, hl, hv]

/-- C3, witness: with the cached flag set, the handler renders only the
lockout message and leaves the state untouched. -/
theorem handleLogin_lockout_gate_spec_witness :
    handleLogin CONFIG ⟨none, ⟨5, 0⟩, true⟩ "x" "y" false ProviderResult.success 3 =
      (⟨none, ⟨5, 0⟩, true⟩, showLockoutMessage CONFIG ⟨5, 0⟩ 3) :=
  ((handleLogin_lockout_gate_spec CONFIG ⟨none, ⟨5, 0⟩, true⟩ "x" "y" false
    ProviderResult.success 3).1 rfl).1

/-- C4: `incrementLoginAttempts` is a no-op when rate limiting is disabled;
otherwise it sets the record to `{count + 1, now}` and persists it; starting
from an absent record with `maxLoginAttempts = 5`, after 5 calls the lockout
check is true, and a 6th call leaves count at 6 with the state still locked. -/
theorem incrementLoginAttempts_spec :
    (∀ (cfg : Config) (st : ClientState) (now : Nat), cfg.enableRateLimiting = false →
      incrementLoginAttempts cfg st now = (st, [])) ∧
    (∀ (cfg : Config) (st : ClientState) (now : Nat), cfg.enableRateLimiting = true →
      (incrementLoginAttempts cfg st now).1.loginAttempts =
        ⟨st.loginAttempts.count + 1, now⟩ ∧
      (incrementLoginAttempts cfg st now).1.storage =
        some (encodeAttempts ⟨st.loginAttempts.count + 1, now⟩)) ∧
    ((incIter 5 ⟨none, ⟨0, 0⟩, false⟩).loginAttempts.count = 5 ∧
      (incIter 5 ⟨none, ⟨0, 0⟩, false⟩).isLocked = true ∧
      checkLockout CONFIG (incIter 5 ⟨none, ⟨0, 0⟩, false⟩) 0 =
        Except.ok (true, incIter 5 ⟨none, ⟨0, 0⟩, false⟩) ∧
      (incIter 6 ⟨none, ⟨0, 0⟩, false⟩).loginAttempts.count = 6 ∧
      (incIter 6 ⟨none, ⟨0, 0⟩, false⟩).isLocked = true ∧
      checkLockout CONFIG (incIter 6 ⟨none, ⟨0, 0⟩, false⟩) 0 =
        Except.ok (true, incIter 6 ⟨none, ⟨0, 0⟩, false⟩)) := by
  refine ⟨fun cfg st now h => by simp [incrementLoginAttempts, h],
    fun cfg st now h => ?_, by decide, by decide, rfl, by decide, by decide, rfl⟩
  simp only [incrementLoginAttempts, h, Bool.not_true, Bool.false_eq_true, if_false]
  split_ifs <;> exact ⟨rfl, rfl⟩

/-- C4, witness: with rate limiting disabled the call is a no-op. -/
theorem incrementLoginAttempts_spec_witness :
    incrementLoginAttempts ⟨5, 900000, 6, false⟩ ⟨none, ⟨3, 4⟩, false⟩ 9 =
      (⟨none, ⟨3, 4⟩, false⟩, []) :=
  incrementLoginAttempts_spec.1 ⟨5, 900000, 6, false⟩ ⟨none, ⟨3, 4⟩, false⟩ 9 rfl

/-- C8: when the lockout gate passes but validation fails, the submission
aborts after rendering field errors: every emitted event is a field-level
error, the provider is not called, and the persisted attempt record — both
the storage slot and the module record — is unchanged. -/
theorem handleLogin_invalid_abort (cfg : Config) (st : ClientState)
    (email password : String) (rememberMe : Bool) (res : ProviderResult) (now : Nat)
    (hl : st.isLocked = false) (hv : (validateForm cfg email password).1 = false) :
    handleLogin cfg st email password rememberMe res now =
      (st, (validateForm cfg email password).2) ∧
    (∀ ev ∈ (handleLogin cfg st email password rememberMe res now).2,
      ∃ f m, ev = Event.showFieldError f m) ∧
    (∀ e p, Event.signInCall e p ∉
      (handleLogin cfg st email password rememberMe res now).2) ∧
    (handleLogin cfg st email password rememberMe res now).1.storage = st.storage ∧
    (handleLogin cfg st email password rememberMe res now).1.loginAttempts =
      st.loginAttempts := by
  have h : handleLogin cfg st email password rememberMe res now =
      (st, (validateForm cfg email password).2) := by
    simp [handleLogin, hl, hv]
  refine ⟨h, ?_, fun e p => ?_, by rw [h], by rw [h]⟩
  · rw [h]
    exact validateForm_events_fieldErrors cfg email password
  · rw [h]
    intro hmem
    obtain ⟨f, m, hfm⟩ := validateForm_events_fieldErrors cfg email password _ hmem
    exact Event.noConfusion hfm

/-- C8, witness: empty credentials fail validation and the handler only
renders the field errors. -/
theorem handleLogin_invalid_abort_witness :
    handleLogin CONFIG ⟨none, ⟨0, 0⟩, false⟩ "" "" false ProviderResult.success 0 =
      (⟨none, ⟨0, 0⟩, false⟩, (validateForm CONFIG "" "").2) :=
  (handleLogin_invalid_abort CONFIG ⟨none, ⟨0, 0⟩, false⟩ "" "" false
    ProviderResult.success 0 rfl (by decide)).1

/-- Field-error events never touch the loading state. -/
theorem foldl_loadingStep_fieldErrors (btn : String) (acc : Bool) (evs : List Event)
    (h : ∀ ev ∈ evs, ∃ f m, ev = Event.showFieldError f m) :
    List.foldl (loadingStep btn) acc evs = acc := by
  induction evs generalizing acc with
  | nil => rfl
  | cons e rest ih =>
      obtain ⟨f, m, rfl⟩ := h e (List.mem_cons_self e rest)
      simp only [List.foldl_cons, loadingStep]
      exact ih acc (fun ev hev => h ev (List.mem_cons_of_mem _ hev))

/-- C9: replaying any trace either handler emits leaves every button's
loading indicator clear — on the success branch and on every failure branch
the `finally` clause clears it, and the branches that never set it never
leave it set either. -/
theorem handleLogin_loading_spec (cfg : Config) (st : ClientState)
    (email password : String) (rememberMe : Bool) (res : ProviderResult) (now : Nat)
    (btn : String) :
    loadingAfter btn (handleLogin cfg st email password rememberMe res now).2 = false ∧
    loadingAfter btn (handleGoogleLogin cfg st res now).2 = false := by
  have hinc : ∀ acc : Bool,
      List.foldl (loadingStep btn) acc (incrementLoginAttempts cfg st now).2 = acc := by
    intro acc
    simp only [incrementLoginAttempts]
    split_ifs <;> simp [loadingStep, showLockoutMessage]
  constructor
  · cases res <;> cases hl : st.isLocked <;> cases hv : (validateForm cfg email password).1 <;>
      simp [handleLogin, hl, hv, loadingAfter, loadingStep, showLockoutMessage, hinc,
        handleLoginError] <;>
      exact foldl_loadingStep_fieldErrors btn false _
        (validateForm_events_fieldErrors cfg email password)
  · cases res <;> cases hl : st.isLocked <;>
      simp [handleGoogleLogin, hl, loadingAfter, loadingStep, showLockoutMessage, hinc,
        handleLoginError]

/-- C10: a failed popup-based Google sign-in — the user closing the popup or
a blocked popup included — feeds the same `incrementLoginAttempts` update a
failed password login does, so five consecutive popup cancellations alone
put the tracker into the locked state. -/
theorem handleGoogleLogin_failure_spec :
    (∀ (cfg : Config) (st : ClientState) (now : Nat) (err : AuthError),
      st.isLocked = false →
      (handleGoogleLogin cfg st (ProviderResult.failure err) now).1 =
        (incrementLoginAttempts cfg st now).1) ∧
    (∀ (cfg : Config) (st : ClientState) (now : Nat) (err : AuthError),
      st.isLocked = false → cfg.enableRateLimiting = true →
      (handleGoogleLogin cfg st (ProviderResult.failure err) now).1.loginAttempts.count =
        st.loginAttempts.count + 1) ∧
    (∀ (cfg : Config) (st : ClientState) (email password : String) (rememberMe : Bool)
      (now : Nat) (err : AuthError),
      st.isLocked = false → (validateForm cfg email password).1 = true →
      (handleLogin cfg st email password rememberMe (ProviderResult.failure err) now).1 =
        (handleGoogleLogin cfg st (ProviderResult.failure err) now).1) ∧
    ((popupFailIter 5 ⟨none, ⟨0, 0⟩, false⟩).isLocked = true ∧
      (popupFailIter 5 ⟨none, ⟨0, 0⟩, false⟩).loginAttempts.count = 5 ∧
      checkLockout CONFIG (popupFailIter 5 ⟨none, ⟨0, 0⟩, false⟩) 0 =
        Except.ok (true, popupFailIter 5 ⟨none, ⟨0, 0⟩, false⟩)) := by
  refine ⟨fun cfg st now err hl => by simp [handleGoogleLogin, hl],
    fun cfg st now err hl hrl => ?_,
    fun cfg st email password rememberMe now err hl hv => by
      simp [handleLogin, handleGoogleLogin, hl, hv],
    by decide, by decide, rfl⟩
  simp only [handleGoogleLogin, hl, Bool.false_eq_true, if_false,
    incrementLoginAttempts, hrl, Bool.not_true]
  split_ifs <;> rfl

/-- C10, witness: a blocked popup increments the tracker exactly as
`incrementLoginAttempts` does. -/
theorem handleGoogleLogin_failure_spec_witness :
    (handleGoogleLogin CONFIG ⟨none, ⟨0, 0⟩, false⟩
        (ProviderResult.failure ⟨"auth/popup-blocked", "blocked"⟩) 0).1 =
      (incrementLoginAttempts CONFIG ⟨none, ⟨0, 0⟩, false⟩ 0).1 :=
  handleGoogleLogin_failure_spec.1 CONFIG ⟨none, ⟨0, 0⟩, false⟩ 0
    ⟨"auth/popup-blocked", "blocked"⟩ rfl

end LoginPage
